import Mathlib

/-!
Verification development for the ResoLute game backend
(session/game-state engine: reward calculator, exercise timer registry,
player/world/progress data model, and the quest state machine).

The definitions below are shallow embeddings of the Python source under
`src/agent/src/resolute/`.  Machine integers are modelled as `Int`/`Nat`
(Python integers are unbounded, so no wrap-around is needed), Python
floats that carry quality/score/time values are modelled as rationals,
fallible operations return `Except`, and the process-wide timer registry
is modelled as an association list keyed by player id.  Database rows
are modelled as lists of records; SQLAlchemy object mutation becomes
replace-by-primary-key.  Timestamps that are only stored (never compared)
are omitted.
-/

namespace Resolute

/-- Python `int(q)` on a real value: truncation toward zero
(`rewards.py` uses `int(...)` on all reward products). -/
def pyInt (q : ℚ) : Int := if 0 ≤ q then ⌊q⌋ else ⌈q⌉

/-- Python `round(q)` for a half-free value, and round-half-to-even on ties
(the semantics of builtin `round` on floats). -/
def pyRound (q : ℚ) : Int :=
  let f := ⌊q⌋
  let r := q - f
  if r < 1/2 then f
  else if 1/2 < r then f + 1
  else if f % 2 = 0 then f else f + 1

/-- Rounding to the nearest integer, half away from zero is irrelevant here:
this is the reading of the word `round` in the specification sentence for
`calculate_exercise_reward`; used only to compare the spec against the code. -/
def roundNearest (q : ℚ) : Int := ⌊q + 1/2⌋

/-- `SkillType` from `db/models.py`. -/
inductive SkillType
  | rhythm
  | melody
  | harmony
deriving DecidableEq

/-- `LocationType` from `db/models.py`. -/
inductive LocationType
  | village
  | path
  | tavern
  | dungeon
deriving DecidableEq

/-- `ProgressType` from `db/models.py`. -/
inductive ProgressType
  | exercise
  | segment
  | song
  | location
deriving DecidableEq

/-- `ProgressState` from `db/models.py`. -/
inductive ProgressState
  | not_started
  | in_progress
  | completed
deriving DecidableEq

/-- `Exercise` row from `db/models.py` (the `instructions` text is omitted;
`skill_bonus` is a string column holding a `SkillType` value or empty,
modelled as an `Option SkillType`). -/
structure Exercise where
  id : Nat
  name : String
  exercise_type : String
  difficulty : Int
  duration_seconds : Int
  xp_reward : Int
  gold_reward : Int
  skill_bonus : Option SkillType
deriving DecidableEq

/-- `RewardResult` from `game/rewards.py`. -/
structure RewardResult where
  xp_gained : Int
  gold_gained : Int
  skill_bonus_type : Option SkillType
  skill_bonus_amount : Int
  level_up : Bool := false
  new_level : Option Nat := none
deriving DecidableEq

namespace RewardCalculator

/-- `RewardCalculator.LEVEL_XP_REQUIREMENTS` from `game/rewards.py`,
already in ascending key order (Python iterates `sorted(dict.items())`). -/
def LEVEL_XP_REQUIREMENTS : List (Nat × Int) :=
  [(1, 0), (2, 100), (3, 250), (4, 500), (5, 850),
   (6, 1300), (7, 1850), (8, 2500), (9, 3250), (10, 4100)]

/-- `RewardCalculator.SKILL_BONUS_BASE`. -/
def SKILL_BONUS_BASE : Int := 2

/-- `RewardCalculator.SKILL_BONUS_PER_DIFFICULTY`. -/
def SKILL_BONUS_PER_DIFFICULTY : Int := 1

/-- `RewardCalculator.TAVERN_GOLD_MULTIPLIER`. -/
def TAVERN_GOLD_MULTIPLIER : Int := 2

/-- `RewardCalculator.TAVERN_REPUTATION_BASE`. -/
def TAVERN_REPUTATION_BASE : Int := 5

/-- `RewardCalculator.calculate_exercise_reward` from `game/rewards.py`. -/
def calculate_exercise_reward (exercise : Exercise) (_player_level : Nat)
    (completion_quality : ℚ) : RewardResult :=
  let xp_gained := pyInt (exercise.xp_reward * completion_quality)
  let gold_gained := pyInt (exercise.gold_reward * completion_quality)
  let skill_bonus :=
    SKILL_BONUS_BASE + exercise.difficulty * SKILL_BONUS_PER_DIFFICULTY
  let skill_bonus := pyInt (skill_bonus * completion_quality)
  { xp_gained := xp_gained
    gold_gained := gold_gained
    skill_bonus_type := exercise.skill_bonus
    skill_bonus_amount := skill_bonus }

/-- Loop body of `RewardCalculator.calculate_level`: walk the requirement
table in ascending order, keeping the last level whose requirement is met,
stopping at the first requirement that is not. -/
def calcLevelLoop : List (Nat × Int) → Int → Nat → Nat
  | [], _, level => level
  | (lvl, req) :: rest, xp, level =>
      if req ≤ xp then calcLevelLoop rest xp lvl else level

/-- `RewardCalculator.calculate_level` from `game/rewards.py`. -/
def calculate_level (total_xp : Int) : Nat :=
  calcLevelLoop LEVEL_XP_REQUIREMENTS total_xp 1

/-- `RewardCalculator.check_level_up` from `game/rewards.py`. -/
def check_level_up (old_xp new_xp : Int) : Bool × Nat :=
  let old_level := calculate_level old_xp
  let new_level := calculate_level new_xp
  (decide (old_level < new_level), new_level)

/-- Result shape of `RewardCalculator.calculate_final_quest_reward`
(the dictionary returned in `game/rewards.py`). -/
structure FinalQuestReward where
  xp_gained : Int
  gold_gained : Int
  reputation_gained : Int
  segments_used : Nat
  performance_score : Int
  victory : Bool
deriving DecidableEq

/-- `RewardCalculator.calculate_final_quest_reward` from `game/rewards.py`. -/
def calculate_final_quest_reward (_player_level : Nat)
    (segments_collected : Nat) (performance_score : ℚ) : FinalQuestReward :=
  let base_xp : Int := 500
  let base_gold : Int := 200
  let base_reputation : Int := 100
  let segment_multiplier : ℚ :=
    min (3/2 : ℚ) (4/5 + (segments_collected : ℚ) * (7/40))
  { xp_gained := pyInt (base_xp * segment_multiplier * performance_score)
    gold_gained := pyInt (base_gold * segment_multiplier * performance_score)
    reputation_gained :=
      pyInt (base_reputation * segment_multiplier * performance_score)
    segments_used := segments_collected
    performance_score := pyRound (performance_score * 100)
    victory := decide ((1/2 : ℚ) ≤ performance_score) }

/-- Result shape of `RewardCalculator.calculate_performance_reward`. -/
structure PerformanceReward where
  gold_gained : Int
  reputation_gained : Int
  performance_score : Int
deriving DecidableEq

/-- `RewardCalculator.calculate_performance_reward` from `game/rewards.py`. -/
def calculate_performance_reward (song_difficulty : Int) (_player_level : Nat)
    (performance_score : ℚ) : PerformanceReward :=
  let base_gold := 10 * song_difficulty
  { gold_gained := pyInt (base_gold * TAVERN_GOLD_MULTIPLIER * performance_score)
    reputation_gained :=
      pyInt (TAVERN_REPUTATION_BASE * song_difficulty * performance_score)
    performance_score := pyRound (performance_score * 100) }

end RewardCalculator

/-- `Player` row from `db/models.py` (timestamps omitted). -/
structure Player where
  id : String
  name : String
  level : Nat
  xp : Int
  gold : Int
  reputation : Int
  skill_rhythm : Int
  skill_melody : Int
  skill_harmony : Int
  current_location_id : Option Nat
deriving DecidableEq

/-- Skill projection following `SKILL_ATTR_MAP` in `db/models.py`. -/
def Player.getSkill (p : Player) : SkillType → Int
  | .rhythm => p.skill_rhythm
  | .melody => p.skill_melody
  | .harmony => p.skill_harmony

/-- `Player.update_skill` from `db/models.py`: sets the addressed skill to
`min 100 (current + delta)` (a cap at 100; the source applies no lower bound). -/
def Player.update_skill (p : Player) (skill_type : SkillType) (delta : Int) :
    Player :=
  match skill_type with
  | .rhythm => { p with skill_rhythm := min 100 (p.skill_rhythm + delta) }
  | .melody => { p with skill_melody := min 100 (p.skill_melody + delta) }
  | .harmony => { p with skill_harmony := min 100 (p.skill_harmony + delta) }

/-- The in-place mutations `PlayerService.update_stats` performs on a found
player row (`game/services/player.py` lines 63 to 78): apply the deltas,
apply the skill delta when a skill type is given and the delta is nonzero
(Python truthiness of `skill_delta`), then recompute the level. -/
def Player.update_stats_apply (p : Player) (xp_delta gold_delta
    reputation_delta : Int) (skill_type : Option SkillType)
    (skill_delta : Int) : Player :=
  let old_xp := p.xp
  let p := { p with
    xp := p.xp + xp_delta
    gold := p.gold + gold_delta
    reputation := p.reputation + reputation_delta }
  let p :=
    match skill_type with
    | some t => if skill_delta ≠ 0 then p.update_skill t skill_delta else p
    | none => p
  let lv := RewardCalculator.check_level_up old_xp p.xp
  if lv.1 then { p with level := lv.2 } else p

/-- `ExerciseState` from `game/exercise_timer.py`. -/
inductive ExerciseState
  | waiting
  | in_progress
  | completed
  | expired
deriving DecidableEq

/-- `ExerciseSession` from `game/exercise_timer.py`; `started_at` is a
wall-clock timestamp in seconds, modelled as a rational. -/
structure ExerciseSession where
  player_id : String
  exercise_id : Nat
  exercise_name : String
  duration_seconds : Int
  started_at : ℚ
  state : ExerciseState
  destination_location_id : Option Nat
deriving DecidableEq

namespace ExerciseSession

/-- `ExerciseSession.elapsed_seconds`: wall-clock delta from `started_at`
to the current time `now`. -/
def elapsed_seconds (now : ℚ) (s : ExerciseSession) : ℚ := now - s.started_at

/-- `ExerciseSession.remaining_seconds`. -/
def remaining_seconds (now : ℚ) (s : ExerciseSession) : ℚ :=
  max 0 ((s.duration_seconds : ℚ) - s.elapsed_seconds now)

/-- `ExerciseSession.is_complete`: elapsed time has reached the duration. -/
def is_complete (now : ℚ) (s : ExerciseSession) : Bool :=
  decide ((s.duration_seconds : ℚ) ≤ s.elapsed_seconds now)

/-- `ExerciseSession.progress_percent`. -/
def progress_percent (now : ℚ) (s : ExerciseSession) : ℚ :=
  if s.duration_seconds = 0 then 100
  else min 100 (s.elapsed_seconds now / (s.duration_seconds : ℚ) * 100)

end ExerciseSession

/-- `ExerciseTimer` from `game/exercise_timer.py`: the process-wide
player-to-session dictionary, modelled as an association list in which a
key occurs at most once (every insertion first removes the key, mirroring
dictionary assignment). -/
structure ExerciseTimer where
  sessions : List (String × ExerciseSession)
deriving DecidableEq

namespace ExerciseTimer

/-- Dictionary lookup `self._sessions.get(player_id)`. -/
def find (t : ExerciseTimer) (player_id : String) : Option ExerciseSession :=
  (t.sessions.find? (fun e => e.1 = player_id)).map (fun e => e.2)

/-- Dictionary removal `self._sessions.pop(player_id, None)`. -/
def pop (t : ExerciseTimer) (player_id : String) :
    ExerciseTimer × Option ExerciseSession :=
  (⟨t.sessions.filter (fun e => e.1 ≠ player_id)⟩, t.find player_id)

/-- Dictionary assignment `self._sessions[player_id] = session`. -/
def insert (t : ExerciseTimer) (player_id : String) (s : ExerciseSession) :
    ExerciseTimer :=
  ⟨(player_id, s) :: (t.sessions.filter (fun e => e.1 ≠ player_id))⟩

/-- In-place update of the stored session object for a key already present
(Python mutates the session; the registry keeps pointing at it). -/
def store (t : ExerciseTimer) (player_id : String) (s : ExerciseSession) :
    ExerciseTimer :=
  ⟨t.sessions.map (fun e => if e.1 = player_id then (player_id, s) else e)⟩

/-- `ExerciseTimer.cancel_session`: pop the session and mark it expired;
returns the removed session (its final state) or nothing. -/
def cancel_session (t : ExerciseTimer) (player_id : String) :
    ExerciseTimer × Option ExerciseSession :=
  let r := t.pop player_id
  (r.1, r.2.map (fun s => { s with state := .expired }))

/-- `ExerciseTimer.complete_session`: pop the session and mark it completed. -/
def complete_session (t : ExerciseTimer) (player_id : String) :
    ExerciseTimer × Option ExerciseSession :=
  let r := t.pop player_id
  (r.1, r.2.map (fun s => { s with state := .completed }))

/-- `ExerciseTimer.start_session`: cancel any existing session for the
player, then register a fresh in-progress session started at `now`.
Returns the new timer, the new session, and the cancelled old session
(with its terminal state), when there was one. -/
def start_session (t : ExerciseTimer) (player_id : String)
    (exercise_id : Nat) (exercise_name : String) (duration_seconds : Int)
    (destination_location_id : Option Nat) (now : ℚ) :
    ExerciseTimer × ExerciseSession × Option ExerciseSession :=
  let r :=
    if (t.find player_id).isSome then t.cancel_session player_id
    else (t, none)
  let s : ExerciseSession :=
    { player_id := player_id
      exercise_id := exercise_id
      exercise_name := exercise_name
      duration_seconds := duration_seconds
      started_at := now
      state := .in_progress
      destination_location_id := destination_location_id }
  (r.1.insert player_id s, s, r.2)

/-- `ExerciseTimer.get_session`: lookup with the lazy completion
transition — when the session is time-complete and still in progress, its
stored state flips to completed before it is returned. -/
def get_session (t : ExerciseTimer) (now : ℚ) (player_id : String) :
    ExerciseTimer × Option ExerciseSession :=
  match t.find player_id with
  | none => (t, none)
  | some s =>
      if s.is_complete now ∧ s.state = .in_progress then
        let s2 := { s with state := ExerciseState.completed }
        (t.store player_id s2, some s2)
      else (t, some s)

/-- `ExerciseTimer.has_active_session`: a raw dictionary lookup compared
against the in-progress state, with no lazy completion transition. -/
def has_active_session (t : ExerciseTimer) (player_id : String) : Bool :=
  match t.find player_id with
  | some s => decide (s.state = .in_progress)
  | none => false

/-- `ExerciseTimer.can_complete`: built on `get_session`, so it does apply
the lazy transition; true when a session exists and its time is up. -/
def can_complete (t : ExerciseTimer) (now : ℚ) (player_id : String) :
    ExerciseTimer × Bool :=
  let r := t.get_session now player_id
  (r.1, match r.2 with
        | some s => s.is_complete now
        | none => false)

end ExerciseTimer

/-- `World` row from `db/models.py` (timestamps omitted). -/
structure World where
  id : Nat
  player_id : String
  name : String
  theme : String
  story_arc : String
  final_monster : String
  rescue_target : String
deriving DecidableEq

/-- `Location` row from `db/models.py`. -/
structure Location where
  id : Nat
  world_id : Nat
  name : String
  description : String
  location_type : LocationType
  exercise_focus : Option String
  order_index : Int
  is_unlocked : Bool
deriving DecidableEq

/-- `Song` row from `db/models.py` (segment list lives in `SongSegment`). -/
structure Song where
  id : Nat
  title : String
  description : String
  difficulty : Int
  total_segments : Nat
  is_final_song : Bool
deriving DecidableEq

/-- `SongSegment` row from `db/models.py`. -/
structure SongSegment where
  id : Nat
  song_id : Nat
  location_id : Option Nat
  segment_index : Int
  name : String
  description : String
  unlock_exercise_type : Option String
deriving DecidableEq

/-- `PlayerProgress` row from `db/models.py` (timestamps omitted; the
timestamp write in `ProgressRepository.mark_completed` is modelled as the
fault it raises, see `ProgressRepository.mark_completed` below). -/
structure PlayerProgress where
  id : Nat
  player_id : String
  progress_type : ProgressType
  reference_id : Nat
  state : ProgressState
  score : Option Int
deriving DecidableEq

/-- The durable store plus the shared timer registry, as seen by one
request: lists of rows per table, the single final song, and the
process-wide `ExerciseTimer`. -/
structure GameState where
  players : List Player
  worlds : List World
  locations : List Location
  song : Option Song
  segments : List SongSegment
  exercises : List Exercise
  progress : List PlayerProgress
  timer : ExerciseTimer
deriving DecidableEq

namespace GameState

/-- `PlayerRepository.get_by_id`. -/
def getPlayer (gs : GameState) (player_id : String) : Option Player :=
  gs.players.find? (fun p => p.id = player_id)

/-- `PlayerRepository.update` followed by flush: the mutated row replaces
the stored row with the same primary key. -/
def putPlayer (gs : GameState) (p : Player) : GameState :=
  { gs with players := gs.players.map (fun q => if q.id = p.id then p else q) }

/-- `WorldRepository.get_by_player_id`. -/
def getWorldByPlayer (gs : GameState) (player_id : String) : Option World :=
  gs.worlds.find? (fun w => w.player_id = player_id)

/-- The `World.locations` relationship: all locations with this world id.
The underlying query order is unspecified; code that needs an order sorts. -/
def worldLocations (gs : GameState) (world_id : Nat) : List Location :=
  gs.locations.filter (fun l => l.world_id = world_id)

/-- `WorldRepository.get_location_by_id`. -/
def getLocation (gs : GameState) (location_id : Nat) : Option Location :=
  gs.locations.find? (fun l => l.id = location_id)

/-- `WorldRepository.unlock_location` plus flush: set `is_unlocked` on the
row with that primary key. -/
def unlockLocation (gs : GameState) (location_id : Nat) : GameState :=
  { gs with locations := gs.locations.map (fun l =>
      if l.id = location_id then { l with is_unlocked := true } else l) }

/-- `WorldRepository.get_segment_by_id`. -/
def getSegment (gs : GameState) (segment_id : Nat) : Option SongSegment :=
  gs.segments.find? (fun s => s.id = segment_id)

/-- `ExerciseRepository.get_by_id`. -/
def getExercise (gs : GameState) (exercise_id : Nat) : Option Exercise :=
  gs.exercises.find? (fun e => e.id = exercise_id)

/-- `ProgressRepository.get` specialised by
`ProgressRepository.get_segment_progress`. -/
def getSegmentProgress (gs : GameState) (player_id : String)
    (segment_id : Nat) : Option PlayerProgress :=
  gs.progress.find? (fun pr =>
    pr.player_id = player_id ∧ pr.progress_type = ProgressType.segment ∧
      pr.reference_id = segment_id)

/-- `ProgressRepository.get_collected_segment_ids`: reference ids of every
completed segment progress row of the player (a set in the source; list
membership below plays the set-membership role). -/
def collectedSegmentIds (gs : GameState) (player_id : String) : List Nat :=
  (gs.progress.filter (fun pr =>
    pr.player_id = player_id ∧ pr.progress_type = ProgressType.segment ∧
      pr.state = ProgressState.completed)).map (fun pr => pr.reference_id)

/-- `ProgressRepository.get_collected_segments`: the segment rows whose id
is among the collected ids. -/
def collectedSegments (gs : GameState) (player_id : String) :
    List SongSegment :=
  gs.segments.filter (fun s => (gs.collectedSegmentIds player_id).contains s.id)

end GameState

/-- Domain error kinds.  The source returns `Result.err(message)` strings;
each constructor stands for one message, carrying the data the source
interpolates into it (the remaining seconds for a not-yet-complete timer,
the collected and required counts for an incomplete segment set).
`pyAttributeError` stands for an uncaught Python `AttributeError`. -/
inductive GameError
  | playerNotFound
  | worldNotFound
  | locationNotFound
  | segmentNotFound
  | exerciseNotFound
  | noActiveExercise
  | exerciseNotYetComplete (remaining_seconds : ℚ)
  | noExercisesAvailable
  | notAtSegmentLocation
  | segmentAlreadyCollected
  | playerHasNoLocation
  | notAtTavern
  | segmentsIncomplete (collected required : Nat)
  | pyAttributeError (attr : String)
deriving DecidableEq

/-- Python truthiness of an optional integer: `None` and `0` are falsy
(`if exercise_session.destination_location_id:` in the source). -/
def pyTruthy : Option Nat → Bool
  | none => false
  | some n => decide (n ≠ 0)

/-- Sort key used all over the world service: ascending `order_index`. -/
def locLE (a b : Location) : Prop := a.order_index ≤ b.order_index

instance : DecidableRel locLE := fun a b =>
  inferInstanceAs (Decidable (a.order_index ≤ b.order_index))

instance : IsTotal Location locLE := ⟨fun a b => le_total a.order_index b.order_index⟩

instance : IsTrans Location locLE := ⟨fun _ _ _ h h2 => le_trans h h2⟩

/-- Sort key for song segments: ascending `segment_index`. -/
def segLE (a b : SongSegment) : Prop := a.segment_index ≤ b.segment_index

instance : DecidableRel segLE := fun a b =>
  inferInstanceAs (Decidable (a.segment_index ≤ b.segment_index))

namespace PlayerService

/-- The default row `PlayerRepository.create` inserts (column defaults from
`db/models.py`; the generated name is `Bard` followed by the first eight
characters of the id). -/
def createPlayer (player_id : String) (name : Option String) : Player :=
  { id := player_id
    name :=
      match name with
      | some n => if n ≠ "" then n else "Bard " ++ (player_id.take 8)
      | none => "Bard " ++ (player_id.take 8)
    level := 1
    xp := 0
    gold := 0
    reputation := 0
    skill_rhythm := 10
    skill_melody := 10
    skill_harmony := 10
    current_location_id := none }

/-- `PlayerService.update_stats` from `game/services/player.py`: look the
player up, apply the deltas and the level recomputation
(`Player.update_stats_apply`), persist. -/
def update_stats (gs : GameState) (player_id : String)
    (xp_delta gold_delta reputation_delta : Int)
    (skill_type : Option SkillType) (skill_delta : Int) :
    GameState × Except GameError Player :=
  match gs.getPlayer player_id with
  | none => (gs, .error .playerNotFound)
  | some p =>
      let p2 := p.update_stats_apply xp_delta gold_delta reputation_delta
        skill_type skill_delta
      (gs.putPlayer p2, .ok p2)

end PlayerService

namespace WorldService

/-- One iteration of the location-creation loop of
`WorldService.create_world` (`game/services/world.py` lines 59 to 68): the
i-th payload entry becomes a location with `order_index = i`, unlocked
exactly when `i = 0`.  Primary keys are autoincremented; `first_id` is the
first id the database hands out. -/
def makeLocation (world_id first_id : Nat)
    (p : Nat × (String × String × LocationType × Option String)) : Location :=
  { id := first_id + p.1
    world_id := world_id
    name := p.2.1
    description := p.2.2.1
    location_type := p.2.2.2.1
    exercise_focus := p.2.2.2.2
    order_index := (p.1 : Int)
    is_unlocked := decide (p.1 = 0) }

/-- The location-creation loop of `WorldService.create_world`:
`for i, loc_data in enumerate(locations): create_location(...)`. -/
def create_world_locations (world_id first_id : Nat)
    (locations : List (String × String × LocationType × Option String)) :
    List Location :=
  locations.enum.map (makeLocation world_id first_id)

/-- The assignment loop of `WorldService._distribute_song_segments`
(`game/services/world.py` lines 96 to 98): the i-th segment is bound to the
i-th location when one exists (`if i < len(locations)`), and is left
untouched otherwise. -/
def assignSegments (segments : List SongSegment) (locations : List Location) :
    List SongSegment :=
  segments.enum.map (fun p =>
    match locations[p.1]? with
    | some loc => { p.2 with location_id := some loc.id }
    | none => p.2)

/-- The same loop as the specification describes it, round-robin: the i-th
segment is bound to location `i mod n`, cycling back to the first location
when segments outnumber locations.  Written from the words of the spec,
only to be compared against `assignSegments`. -/
def assignSegmentsRoundRobin (segments : List SongSegment)
    (locations : List Location) : List SongSegment :=
  segments.enum.map (fun p =>
    match locations[p.1 % locations.length]? with
    | some loc => { p.2 with location_id := some loc.id }
    | none => p.2)

/-- Write one reassigned segment row back
(`WorldRepository.update_segment_location` plus flush). -/
def putSegment (gs : GameState) (s : SongSegment) : GameState :=
  { gs with segments := gs.segments.map (fun x => if x.id = s.id then s else x) }

/-- `WorldService._distribute_song_segments` from `game/services/world.py`:
nothing when there is no default song; otherwise the segments of the song in
ascending `segment_index` are assigned over the non-dungeon locations of the
world in ascending `order_index` (`assignSegments`), each assignment written
back through the repository. -/
def distribute_song_segments (gs : GameState) (world_id : Nat) : GameState :=
  match gs.song with
  | none => gs
  | some song =>
      let locations := List.insertionSort locLE
        (gs.locations.filter (fun l =>
          l.world_id = world_id ∧ l.location_type ≠ LocationType.dungeon))
      let segments := List.insertionSort segLE
        (gs.segments.filter (fun s => s.song_id = song.id))
      (assignSegments segments locations).foldl putSegment gs

/-- The scan of `WorldService.unlock_next_location`: first still-locked
location of the list, in list order. -/
def firstLocked : List Location → Option Location
  | [] => none
  | l :: rest => if l.is_unlocked then firstLocked rest else some l

/-- `WorldService.unlock_next_location` from `game/services/world.py`:
walk the world locations in ascending `order_index`; unlock the first
locked one and report true, or report false when none is locked. -/
def unlock_next_location (gs : GameState) (player_id : String) :
    GameState × Except GameError Bool :=
  match gs.getWorldByPlayer player_id with
  | none => (gs, .error .worldNotFound)
  | some w =>
      match firstLocked (List.insertionSort locLE (gs.worldLocations w.id)) with
      | none => (gs, .ok false)
      | some l => (gs.unlockLocation l.id, .ok true)

/-- `WorldService.create_world` from `game/services/world.py`.  The database
hands out the new world id and the first location id; they enter as the
parameters `world_id` and `first_location_id` (assumed fresh where a claim
needs it).  Steps in source order: ensure the player exists, insert the
world row, insert the locations (first unlocked), distribute the default
song segments, set the player starting location to the first location by
`order_index`. -/
def create_world (gs : GameState) (player_id name theme story_arc
    final_monster rescue_target : String)
    (locations : List (String × String × LocationType × Option String))
    (world_id first_location_id : Nat) : GameState × World :=
  let gs :=
    if (gs.getPlayer player_id).isSome then gs
    else { gs with players :=
            gs.players ++ [PlayerService.createPlayer player_id none] }
  let world : World :=
    { id := world_id
      player_id := player_id
      name := name
      theme := theme
      story_arc := story_arc
      final_monster := final_monster
      rescue_target := rescue_target }
  let gs := { gs with worlds := gs.worlds ++ [world] }
  let gs := { gs with locations :=
      gs.locations ++ create_world_locations world_id first_location_id locations }
  let gs := distribute_song_segments gs world_id
  let gs :=
    match (List.insertionSort locLE (gs.worldLocations world_id)).head? with
    | some first =>
        match gs.getPlayer player_id with
        | some p => gs.putPlayer { p with current_location_id := some first.id }
        | none => gs
    | none => gs
  (gs, world)

end WorldService

namespace ExerciseService

/-- Success payload of `ExerciseService.complete_exercise`. -/
structure CompleteExerciseOk where
  rewards : RewardResult
  new_location_id : Option Nat
  player : Player
deriving DecidableEq

/-- `ExerciseService.complete_exercise` from `game/services/exercise.py`,
at current time `now`: read the session through the lazily-completing
`get_session`; refuse while the timer has not elapsed, reporting the
remaining seconds; otherwise award the exercise reward at full quality,
move the player when a destination was set (Python truthiness of the id)
and unlock the next location, persist, drop the timer session, and return
the rewards with the refreshed player. -/
def complete_exercise (gs : GameState) (now : ℚ) (player_id : String) :
    GameState × Except GameError CompleteExerciseOk :=
  let r := gs.timer.get_session now player_id
  let gs := { gs with timer := r.1 }
  match r.2 with
  | none => (gs, .error .noActiveExercise)
  | some sess =>
    if ¬ sess.is_complete now then
      (gs, .error (.exerciseNotYetComplete (sess.remaining_seconds now)))
    else
      match gs.getExercise sess.exercise_id with
      | none => (gs, .error .exerciseNotFound)
      | some exercise =>
        match gs.getPlayer player_id with
        | none => (gs, .error .playerNotFound)
        | some player =>
          let reward := RewardCalculator.calculate_exercise_reward exercise
            player.level 1
          let old_level := player.level
          let old_xp := player.xp
          let player := { player with
            xp := player.xp + reward.xp_gained
            gold := player.gold + reward.gold_gained }
          let player :=
            match reward.skill_bonus_type with
            | some t => player.update_skill t reward.skill_bonus_amount
            | none => player
          let lv := RewardCalculator.check_level_up old_xp player.xp
          let player := if lv.1 then { player with level := lv.2 } else player
          let traveling := pyTruthy sess.destination_location_id
          let player :=
            if traveling then
              { player with current_location_id := sess.destination_location_id }
            else player
          let gs :=
            if traveling then (WorldService.unlock_next_location gs player_id).1
            else gs
          let gs := gs.putPlayer player
          let gs := { gs with timer := (gs.timer.complete_session player_id).1 }
          let player2 := (gs.getPlayer player_id).getD player
          let reward := { reward with
            level_up := decide (old_level < player2.level)
            new_level :=
              if old_level < player2.level then some player2.level else none }
          (gs, .ok { rewards := reward
                     new_location_id := sess.destination_location_id
                     player := player2 })

end ExerciseService

namespace ProgressRepository

/-- `ProgressRepository.mark_completed` from `db/repositories/progress.py`:
it sets the state to completed and then evaluates
`datetime.now(datetime.UTC)` for the completion timestamp.  In that module
`datetime` names the class (imported with `from datetime import datetime`),
and the class has no `UTC` attribute, so the expression raises
`AttributeError` on every call, before the flush.  Modelled as the fault it
raises.  (The parallel async implementation in `game/state_manager.py`
writes `datetime.utcnow()` at the same spot, showing the intended
behaviour: return the row with state completed.) -/
def mark_completed (_progress : PlayerProgress) :
    Except GameError PlayerProgress :=
  .error (.pyAttributeError "UTC")

end ProgressRepository

namespace QuestService

/-- Success payload of `QuestService.collect_segment`. -/
structure CollectSegmentOk where
  segment : SongSegment
deriving DecidableEq

/-- `QuestService.collect_segment` from `game/services/quest.py`: the
segment must exist, the player must exist and stand at the location the
segment is bound to, and the segment must not already be collected; then a
progress row is created when missing and marked completed.  The request
runs in a transaction that rolls back on an uncaught exception, so on the
`mark_completed` fault the state is returned unchanged. -/
def collect_segment (gs : GameState) (player_id : String) (segment_id : Nat) :
    GameState × Except GameError CollectSegmentOk :=
  match gs.getSegment segment_id with
  | none => (gs, .error .segmentNotFound)
  | some segment =>
    match gs.getPlayer player_id with
    | none => (gs, .error .playerNotFound)
    | some player =>
      if segment.location_id ≠ player.current_location_id then
        (gs, .error .notAtSegmentLocation)
      else
        let existing := gs.getSegmentProgress player_id segment_id
        match existing with
        | some progress =>
          if progress.state = ProgressState.completed then
            (gs, .error .segmentAlreadyCollected)
          else
            match ProgressRepository.mark_completed progress with
            | .error e => (gs, .error e)
            | .ok pr2 =>
                ({ gs with progress := gs.progress.map (fun x =>
                    if x.id = pr2.id then pr2 else x) },
                 .ok { segment := segment })
        | none =>
          let progress : PlayerProgress :=
            { id := gs.progress.length + 1
              player_id := player_id
              progress_type := ProgressType.segment
              reference_id := segment_id
              state := ProgressState.not_started
              score := none }
          match ProgressRepository.mark_completed progress with
          | .error e => (gs, .error e)
          | .ok pr2 =>
              ({ gs with progress := gs.progress ++ [pr2] },
               .ok { segment := segment })

/-- Success payload of `QuestService.get_inventory`. -/
structure InventoryOk where
  collected_segments : List SongSegment
  total_segments : Nat
  song_title : String
  can_perform_final : Bool
deriving DecidableEq

/-- `QuestService.get_inventory` from `game/services/quest.py` (it cannot
fail; the fallbacks 4 and the default title apply when no final song row
exists). -/
def get_inventory (gs : GameState) (player_id : String) : InventoryOk :=
  let collected := gs.collectedSegments player_id
  let total :=
    match gs.song with
    | some s => s.total_segments
    | none => 4
  { collected_segments := collected
    total_segments := total
    song_title :=
      match gs.song with
      | some s => s.title
      | none => "The Hero\x27s Ballad"
    can_perform_final := decide (collected.length = total) }

/-- Success payload of `QuestService.check_final_quest_ready`. -/
structure ReadyOk where
  ready : Bool
  segments_collected : Nat
  segments_required : Nat
  final_monster : Option String
  rescue_target : Option String
deriving DecidableEq

/-- `QuestService.check_final_quest_ready` from `game/services/quest.py`. -/
def check_final_quest_ready (gs : GameState) (player_id : String) : ReadyOk :=
  let inv := get_inventory gs player_id
  let world := gs.getWorldByPlayer player_id
  { ready := inv.can_perform_final
    segments_collected := inv.collected_segments.length
    segments_required := inv.total_segments
    final_monster := world.map (fun w => w.final_monster)
    rescue_target := world.map (fun w => w.rescue_target) }

/-- Success payload of `QuestService.complete_final_quest`. -/
structure FinalQuestOk where
  status : String
  victory : Bool
  monster_charmed : String
  rescued : Option String
  rewards : RewardCalculator.FinalQuestReward
  player : Player
deriving DecidableEq

/-- `QuestService.complete_final_quest` from `game/services/quest.py`:
refuse while not all segments are collected (reporting the counts); compute
the final reward; apply the xp, gold and reputation deltas only on victory
(performance score at least one half); return the victory flag, names and
rewards in every non-error outcome. -/
def complete_final_quest (gs : GameState) (player_id : String)
    (performance_score : ℚ) : GameState × Except GameError FinalQuestOk :=
  let ready := check_final_quest_ready gs player_id
  if ¬ ready.ready then
    (gs, .error (.segmentsIncomplete ready.segments_collected
      ready.segments_required))
  else
    match gs.getPlayer player_id with
    | none => (gs, .error .playerNotFound)
    | some player =>
      match gs.getWorldByPlayer player_id with
      | none => (gs, .error .worldNotFound)
      | some world =>
        let rewards := RewardCalculator.calculate_final_quest_reward
          player.level ready.segments_collected performance_score
        let gs2 :=
          if rewards.victory then
            gs.putPlayer { player with
              xp := player.xp + rewards.xp_gained
              gold := player.gold + rewards.gold_gained
              reputation := player.reputation + rewards.reputation_gained }
          else gs
        let player2 := (gs2.getPlayer player_id).getD player
        (gs2, .ok
          { status := if rewards.victory then "game_complete" else "quest_failed"
            victory := rewards.victory
            monster_charmed := world.final_monster
            rescued := if rewards.victory then some world.rescue_target else none
            rewards := rewards
            player := player2 })

end QuestService

section LevelLemmas

open RewardCalculator

/-- Entries of the requirement table ordered on both components
(levels and requirements both ascend). -/
def levelTableOrd (p q : Nat × Int) : Prop := p.1 ≤ q.1 ∧ p.2 ≤ q.2

instance : DecidableRel levelTableOrd := fun p q =>
  inferInstanceAs (Decidable (p.1 ≤ q.1 ∧ p.2 ≤ q.2))

/-- The level loop never returns less than its accumulator when every
upcoming level is at least the accumulator. -/
theorem calcLevelLoop_ge (L : List (Nat × Int)) (y : Int) (acc : Nat)
    (hp : List.Pairwise levelTableOrd L) (h : ∀ p ∈ L, acc ≤ p.1) :
    acc ≤ calcLevelLoop L y acc := by
  induction L generalizing acc with
  | nil => exact le_refl acc
  | cons hd rest ih =>
    obtain ⟨lvl, req⟩ := hd
    rw [List.pairwise_cons] at hp
    simp only [calcLevelLoop]
    split_ifs with hr
    · exact le_trans (h (lvl, req) (by simp))
        (ih lvl hp.2 (fun p hq => (hp.1 p hq).1))
    · exact le_refl acc

/-- The level loop is monotone in the xp argument. -/
theorem calcLevelLoop_mono (L : List (Nat × Int)) (x y : Int) (acc : Nat)
    (hxy : x ≤ y) (hp : List.Pairwise levelTableOrd L)
    (h : ∀ p ∈ L, acc ≤ p.1) :
    calcLevelLoop L x acc ≤ calcLevelLoop L y acc := by
  induction L generalizing acc with
  | nil => exact le_refl acc
  | cons hd rest ih =>
    obtain ⟨lvl, req⟩ := hd
    rw [List.pairwise_cons] at hp
    simp only [calcLevelLoop]
    split_ifs with hx hy
    · exact ih lvl hp.2 (fun p hq => (hp.1 p hq).1)
    · omega
    · exact le_trans (h (lvl, req) (by simp))
        (calcLevelLoop_ge rest y lvl hp.2 (fun p hq => (hp.1 p hq).1))
    · exact le_refl acc

/-- Every table entry whose requirement is met bounds the loop result from
below. -/
theorem calcLevelLoop_upper (L : List (Nat × Int)) (xp : Int) (acc : Nat)
    (hp : List.Pairwise levelTableOrd L) (h : ∀ p ∈ L, acc ≤ p.1) :
    ∀ p ∈ L, p.2 ≤ xp → p.1 ≤ calcLevelLoop L xp acc := by
  induction L generalizing acc with
  | nil => intro p hq; simp at hq
  | cons hd rest ih =>
    obtain ⟨lvl, req⟩ := hd
    rw [List.pairwise_cons] at hp
    intro p hq hpx
    simp only [List.mem_cons] at hq
    simp only [calcLevelLoop]
    rcases hq with rfl | hq
    · rw [if_pos hpx]
      exact calcLevelLoop_ge rest xp lvl hp.2 (fun q hq2 => (hp.1 q hq2).1)
    · split_ifs with hr
      · exact ih lvl hp.2 (fun q hq2 => (hp.1 q hq2).1) p hq hpx
      · exact absurd (le_trans (hp.1 p hq).2 hpx) hr

/-- The loop result is the accumulator or the level of some table entry
whose requirement is met. -/
theorem calcLevelLoop_mem (L : List (Nat × Int)) (xp : Int) (acc : Nat) :
    calcLevelLoop L xp acc = acc ∨
      ∃ p ∈ L, p.2 ≤ xp ∧ calcLevelLoop L xp acc = p.1 := by
  induction L generalizing acc with
  | nil => exact Or.inl rfl
  | cons hd rest ih =>
    obtain ⟨lvl, req⟩ := hd
    simp only [calcLevelLoop]
    split_ifs with hr
    · rcases ih lvl with heq | ⟨p, hq, hpx, heq⟩
      · exact Or.inr ⟨(lvl, req), by simp, hr, heq⟩
      · exact Or.inr ⟨p, by simp [hq], hpx, heq⟩
    · exact Or.inl rfl

end LevelLemmas

/-- C9: for all xp at least 0, `calculate_level` is at least 1, monotone
non-decreasing, and returns the highest level of the fixed threshold table
whose cumulative requirement is at most xp. -/
theorem c9_calculate_level_monotone_highest (xp : Int) (hxp : 0 ≤ xp) :
    1 ≤ RewardCalculator.calculate_level xp ∧
    (∀ y, xp ≤ y →
      RewardCalculator.calculate_level xp ≤ RewardCalculator.calculate_level y) ∧
    (∃ req, (RewardCalculator.calculate_level xp, req) ∈
        RewardCalculator.LEVEL_XP_REQUIREMENTS ∧ req ≤ xp) ∧
    (∀ p ∈ RewardCalculator.LEVEL_XP_REQUIREMENTS, p.2 ≤ xp →
      p.1 ≤ RewardCalculator.calculate_level xp) := by
  have hpw : List.Pairwise levelTableOrd RewardCalculator.LEVEL_XP_REQUIREMENTS :=
    by decide
  have hacc : ∀ p ∈ RewardCalculator.LEVEL_XP_REQUIREMENTS, 1 ≤ p.1 := by decide
  refine ⟨?_, ?_, ?_, ?_⟩
  · exact calcLevelLoop_ge _ xp 1 hpw hacc
  · intro y hy
    exact calcLevelLoop_mono _ xp y 1 hy hpw hacc
  · rcases calcLevelLoop_mem RewardCalculator.LEVEL_XP_REQUIREMENTS xp 1 with
      heq | ⟨p, hq, hpx, heq⟩
    · exact ⟨0, by rw [RewardCalculator.calculate_level, heq]; decide, hxp⟩
    · exact ⟨p.2, by rw [RewardCalculator.calculate_level, heq]; simpa using hq,
        hpx⟩
  · exact calcLevelLoop_upper _ xp 1 hpw hacc

/-- A concrete player with the default starting stats. -/
def examplePlayer : Player :=
  { id := "p1"
    name := "Bard p1"
    level := 1
    xp := 0
    gold := 0
    reputation := 0
    skill_rhythm := 10
    skill_melody := 10
    skill_harmony := 10
    current_location_id := none }

/-- C1 counterexample: a negative skill delta drives a skill value in
[0,100] below zero, both through `Player.update_skill` directly and through
the `update_stats` mutation path; the source caps at 100 but applies no
lower bound. -/
theorem c1_counterexample :
    (examplePlayer.update_skill SkillType.rhythm (-20)).skill_rhythm = -10 ∧
    ¬ (0 ≤ (examplePlayer.update_skill SkillType.rhythm (-20)).skill_rhythm) ∧
    (examplePlayer.update_stats_apply 0 0 0 (some SkillType.rhythm)
        (-20)).skill_rhythm = -10 := by
  refine ⟨?_, ?_, ?_⟩ <;> decide

/-- C1 amended: a skill update never pushes a skill above 100, leaves the
other skills untouched, keeps a skill inside [0,100] whenever the applied
delta is non-negative, and the `update_stats` path changes a skill exactly
as `update_skill` does (skipping the update on a zero delta). -/
theorem c1_skill_update_bounds (p : Player) (t : SkillType) (d : Int) :
    (p.update_skill t d).getSkill t ≤ 100 ∧
    (∀ u, u ≠ t → (p.update_skill t d).getSkill u = p.getSkill u) ∧
    (0 ≤ d → 0 ≤ p.getSkill t → p.getSkill t ≤ 100 →
      0 ≤ (p.update_skill t d).getSkill t ∧
        (p.update_skill t d).getSkill t ≤ 100) ∧
    (∀ xpd gd rd,
      (p.update_stats_apply xpd gd rd (some t) d).getSkill t =
        if d = 0 then p.getSkill t else (p.update_skill t d).getSkill t) := by
  refine ⟨?_, ?_, ?_, ?_⟩
  · cases t <;> simp [Player.update_skill, Player.getSkill]
  · intro u hu
    cases t <;> cases u <;> simp_all [Player.update_skill, Player.getSkill]
  · intro hd h0 h100
    cases t <;> simp_all [Player.update_skill, Player.getSkill] <;> omega
  · intro xpd gd rd
    rcases eq_or_ne d 0 with rfl | hd
    · cases t <;>
        simp [Player.update_stats_apply, Player.getSkill,
          Player.update_skill] <;>
        split_ifs <;> simp [Player.getSkill]
    · cases t <;>
        simp [Player.update_stats_apply, Player.getSkill,
          Player.update_skill, hd] <;>
        split_ifs <;> simp [Player.getSkill]

/-- Witness for the amended C1 at the default player and delta 5. -/
theorem c1_witness :
    0 ≤ (examplePlayer.update_skill SkillType.rhythm 5).getSkill
        SkillType.rhythm ∧
    (examplePlayer.update_skill SkillType.rhythm 5).getSkill
        SkillType.rhythm ≤ 100 :=
  (c1_skill_update_bounds examplePlayer SkillType.rhythm 5).2.2.1
    (by decide) (by decide) (by decide)

/-- A concrete exercise used to compare the reward formulas. -/
def exampleExercise : Exercise :=
  { id := 1
    name := "Quarter note drill"
    exercise_type := "rhythm"
    difficulty := 1
    duration_seconds := 60
    xp_reward := 5
    gold_reward := 5
    skill_bonus := some SkillType.rhythm }

/-- C2 counterexample: at quality 3/4 (exactly representable in binary
floating point, so the modelling with rationals matches the float run) the
code truncates 5 * 3/4 = 3.75 to 3 where the claimed rounding to the
nearest integer gives 4. -/
theorem c2_counterexample :
    (RewardCalculator.calculate_exercise_reward exampleExercise 1
        (3/4)).xp_gained = 3 ∧
    roundNearest ((exampleExercise.xp_reward : ℚ) * (3/4)) = 4 ∧
    (RewardCalculator.calculate_exercise_reward exampleExercise 1
        (3/4)).xp_gained ≠
      roundNearest ((exampleExercise.xp_reward : ℚ) * (3/4)) := by
  have h1 : (RewardCalculator.calculate_exercise_reward exampleExercise 1
      (3/4)).xp_gained = 3 := by
    norm_num [RewardCalculator.calculate_exercise_reward, exampleExercise, pyInt,
      Int.floor_eq_iff]
  have h2 : roundNearest ((exampleExercise.xp_reward : ℚ) * (3/4)) = 4 := by
    norm_num [roundNearest, exampleExercise, Int.floor_eq_iff]
  exact ⟨h1, h2, by rw [h1, h2]; decide⟩

/-- C2 amended: for quality in the unit interval and non-negative reward
columns, `calculate_exercise_reward` returns the products truncated toward
zero, which on these non-negative products is the floor, not the nearest
integer. -/
theorem c2_exercise_reward_truncates (ex : Exercise) (lvl : Nat) (q : ℚ)
    (h0 : 0 ≤ q) (h1 : q ≤ 1) (hxp : 0 ≤ ex.xp_reward)
    (hgold : 0 ≤ ex.gold_reward) (hd : 0 ≤ ex.difficulty) :
    (RewardCalculator.calculate_exercise_reward ex lvl q).xp_gained =
      ⌊(ex.xp_reward : ℚ) * q⌋ ∧
    (RewardCalculator.calculate_exercise_reward ex lvl q).gold_gained =
      ⌊(ex.gold_reward : ℚ) * q⌋ ∧
    (RewardCalculator.calculate_exercise_reward ex lvl q).skill_bonus_amount =
      ⌊((2 : ℚ) + (ex.difficulty : ℚ) * 1) * q⌋ ∧
    (RewardCalculator.calculate_exercise_reward ex lvl q).skill_bonus_type =
      ex.skill_bonus ∧
    0 ≤ (RewardCalculator.calculate_exercise_reward ex lvl q).xp_gained ∧
    (RewardCalculator.calculate_exercise_reward ex lvl q).xp_gained ≤
      ex.xp_reward := by
  have hxq : (0 : ℚ) ≤ (ex.xp_reward : ℚ) * q :=
    mul_nonneg (by exact_mod_cast hxp) h0
  have hgq : (0 : ℚ) ≤ (ex.gold_reward : ℚ) * q :=
    mul_nonneg (by exact_mod_cast hgold) h0
  have hsq : (0 : ℚ) ≤
      ((RewardCalculator.SKILL_BONUS_BASE +
        ex.difficulty * RewardCalculator.SKILL_BONUS_PER_DIFFICULTY : Int) : ℚ) * q := by
    have hd2 : (0 : Int) ≤ RewardCalculator.SKILL_BONUS_BASE +
        ex.difficulty * RewardCalculator.SKILL_BONUS_PER_DIFFICULTY := by
      simp only [RewardCalculator.SKILL_BONUS_BASE,
        RewardCalculator.SKILL_BONUS_PER_DIFFICULTY]
      omega
    exact mul_nonneg (by exact_mod_cast hd2) h0
  refine ⟨?_, ?_, ?_, rfl, ?_, ?_⟩
  · simp [RewardCalculator.calculate_exercise_reward, pyInt, hxq]
  · simp [RewardCalculator.calculate_exercise_reward, pyInt, hgq]
  · simp only [RewardCalculator.calculate_exercise_reward, pyInt, if_pos hsq]
    congr 1
    push_cast [RewardCalculator.SKILL_BONUS_BASE,
      RewardCalculator.SKILL_BONUS_PER_DIFFICULTY]
    ring
  · simp only [RewardCalculator.calculate_exercise_reward, pyInt, if_pos hxq]
    exact Int.le_floor.2 (by exact_mod_cast hxq)
  · simp only [RewardCalculator.calculate_exercise_reward, pyInt, if_pos hxq]
    have hle : (ex.xp_reward : ℚ) * q ≤ (ex.xp_reward : ℚ) := by
      calc (ex.xp_reward : ℚ) * q ≤ (ex.xp_reward : ℚ) * 1 :=
            mul_le_mul_of_nonneg_left h1 (by exact_mod_cast hxp)
        _ = (ex.xp_reward : ℚ) := mul_one _
    have h2 := Int.floor_le_floor hle
    simpa using h2

/-- Witness for the amended C2 at the concrete exercise and quality 1/2. -/
theorem c2_witness :
    (RewardCalculator.calculate_exercise_reward exampleExercise 1
        (1/2)).xp_gained = ⌊((exampleExercise.xp_reward : ℚ) * (1/2))⌋ ∧
    0 ≤ (RewardCalculator.calculate_exercise_reward exampleExercise 1
        (1/2)).xp_gained := by
  have h := c2_exercise_reward_truncates exampleExercise 1 (1/2)
    (by norm_num) (by norm_num) (by decide) (by decide) (by decide)
  exact ⟨h.1, h.2.2.2.2.1⟩

/-- A concrete non-dungeon location. -/
def exampleLocation : Location :=
  { id := 10
    world_id := 1
    name := "Greenhollow Village"
    description := ""
    location_type := LocationType.village
    exercise_focus := some "rhythm"
    order_index := 0
    is_unlocked := true }

/-- A concrete first song segment, initially unbound. -/
def exampleSegA : SongSegment :=
  { id := 1
    song_id := 1
    location_id := none
    segment_index := 0
    name := "First verse"
    description := ""
    unlock_exercise_type := none }

/-- A concrete second song segment, initially unbound. -/
def exampleSegB : SongSegment :=
  { id := 2
    song_id := 1
    location_id := none
    segment_index := 1
    name := "Second verse"
    description := ""
    unlock_exercise_type := none }

/-- C3 counterexample: with two segments and one non-dungeon location the
source assignment loop leaves the second segment unbound, where the claimed
round-robin distribution would cycle back and bind it to the first
location. -/
theorem c3_counterexample :
    (WorldService.assignSegments [exampleSegA, exampleSegB]
        [exampleLocation]).map (fun s => s.location_id) = [some 10, none] ∧
    (WorldService.assignSegmentsRoundRobin [exampleSegA, exampleSegB]
        [exampleLocation]).map (fun s => s.location_id) =
      [some 10, some 10] ∧
    WorldService.assignSegments [exampleSegA, exampleSegB] [exampleLocation] ≠
      WorldService.assignSegmentsRoundRobin [exampleSegA, exampleSegB]
        [exampleLocation] := by
  refine ⟨?_, ?_, ?_⟩ <;> decide

/-- C3 amended: segment distribution is a truncated one-to-one assignment,
not a cycling one — the i-th segment (by ascending segment index) is bound
to the i-th non-dungeon location (by ascending order index) while locations
last, and every segment past the location count is left untouched. -/
theorem c3_truncated_assignment (segments : List SongSegment)
    (locations : List Location) :
    (WorldService.assignSegments segments locations).length =
      segments.length ∧
    (∀ (i : Nat) (s : SongSegment) (loc : Location),
      segments[i]? = some s → locations[i]? = some loc →
      (WorldService.assignSegments segments locations)[i]? =
        some { s with location_id := some loc.id }) ∧
    (∀ (i : Nat) (s : SongSegment),
      segments[i]? = some s → locations[i]? = none →
      (WorldService.assignSegments segments locations)[i]? = some s) := by
  refine ⟨?_, ?_, ?_⟩
  · simp [WorldService.assignSegments]
  · intro i s loc hs hl
    simp [WorldService.assignSegments, List.getElem?_map, List.getElem?_enum,
      hs, hl]
  · intro i s hs hl
    simp [WorldService.assignSegments, List.getElem?_map, List.getElem?_enum,
      hs, hl]

/-- Witness for the amended C3 on the two-segment, one-location instance. -/
theorem c3_witness :
    (WorldService.assignSegments [exampleSegA, exampleSegB]
        [exampleLocation])[0]? =
      some { exampleSegA with location_id := some exampleLocation.id } ∧
    (WorldService.assignSegments [exampleSegA, exampleSegB]
        [exampleLocation])[1]? = some exampleSegB := by
  have h1 := (c3_truncated_assignment [exampleSegA, exampleSegB]
    [exampleLocation]).2.1 0 exampleSegA exampleLocation (by decide) (by decide)
  have h2 := (c3_truncated_assignment [exampleSegA, exampleSegB]
    [exampleLocation]).2.2 1 exampleSegB (by decide) (by decide)
  exact ⟨h1, h2⟩

section TimerLemmas

/-- Entries surviving a key removal never match the removed key. -/
theorem filter_key_of_filter_ne (l : List (String × ExerciseSession))
    (pid : String) :
    (l.filter (fun e => e.1 ≠ pid)).filter (fun e => e.1 = pid) = [] := by
  induction l with
  | nil => rfl
  | cons e rest ih =>
    by_cases h : e.1 = pid <;> simp [List.filter_cons, h, ih]

/-- Looking up a key right after storing a session under it yields that
session, provided the key was present. -/
theorem find_store_self (t : ExerciseTimer) (pid : String)
    (s2 : ExerciseSession) (h : (t.find pid).isSome = true) :
    (t.store pid s2).find pid = some s2 := by
  obtain ⟨l⟩ := t
  induction l with
  | nil => simp [ExerciseTimer.find] at h
  | cons e rest ih =>
    by_cases he : e.1 = pid
    · simp [ExerciseTimer.store, ExerciseTimer.find, List.find?_cons, he]
    · have h2 : (({ sessions := rest } : ExerciseTimer).find pid).isSome = true := by
        simpa [ExerciseTimer.find, List.find?_cons, he] using h
      have h3 := ih h2
      simpa [ExerciseTimer.store, ExerciseTimer.find, List.find?_cons, he]
        using h3

end TimerLemmas

/-- C4: starting a session for a player who already has one leaves exactly
one registry entry for that player, holding the new session, and the
replaced session is returned in the expired state. -/
theorem c4_start_session_replaces (t : ExerciseTimer) (pid : String)
    (eid : Nat) (nm : String) (dur : Int) (dest : Option Nat) (now : ℚ)
    (old : ExerciseSession) (hold : t.find pid = some old) :
    ((t.start_session pid eid nm dur dest now).1.sessions.filter
        (fun e => e.1 = pid)).length = 1 ∧
    (t.start_session pid eid nm dur dest now).1.find pid =
      some (t.start_session pid eid nm dur dest now).2.1 ∧
    (t.start_session pid eid nm dur dest now).2.2 =
      some { old with state := ExerciseState.expired } := by
  have hsome : (t.find pid).isSome = true := by rw [hold]; rfl
  refine ⟨?_, ?_, ?_⟩
  · simp only [ExerciseTimer.start_session, hsome, if_pos,
      ExerciseTimer.cancel_session, ExerciseTimer.pop, ExerciseTimer.insert,
      List.filter_cons, List.filter_filter]
    simp [filter_key_of_filter_ne]
  · simp [ExerciseTimer.start_session, hsome, ExerciseTimer.cancel_session,
      ExerciseTimer.pop, ExerciseTimer.insert, ExerciseTimer.find,
      List.find?_cons]
  · simp [ExerciseTimer.start_session, hsome, ExerciseTimer.cancel_session,
      ExerciseTimer.pop, hold]

/-- A registry holding a single in-progress session, for the witnesses. -/
def exampleTimer : ExerciseTimer :=
  ⟨[("p1", { player_id := "p1"
             exercise_id := 3
             exercise_name := "Quarter note drill"
             duration_seconds := 60
             started_at := 0
             state := ExerciseState.in_progress
             destination_location_id := some 10 })]⟩

/-- Witness for C4 on a concrete one-entry registry. -/
theorem c4_witness :
    ((exampleTimer.start_session "p1" 4 "Scale run" 30 none 10).1.sessions.filter
        (fun e => e.1 = "p1")).length = 1 ∧
    (exampleTimer.start_session "p1" 4 "Scale run" 30 none 10).1.find "p1" =
      some (exampleTimer.start_session "p1" 4 "Scale run" 30 none 10).2.1 ∧
    (exampleTimer.start_session "p1" 4 "Scale run" 30 none 10).2.2 =
      some { player_id := "p1"
             exercise_id := 3
             exercise_name := "Quarter note drill"
             duration_seconds := 60
             started_at := 0
             state := ExerciseState.expired
             destination_location_id := some 10 } := by
  have h := c4_start_session_replaces exampleTimer "p1" 4 "Scale run" 30 none 10
    { player_id := "p1"
      exercise_id := 3
      exercise_name := "Quarter note drill"
      duration_seconds := 60
      started_at := 0
      state := ExerciseState.in_progress
      destination_location_id := some 10 } (by decide)
  exact h

/-- C10: `has_active_session` is true exactly when the registry stores a
session for the player whose recorded state field is in-progress.  It does
not itself apply the lazy time-based completion: for an in-progress session
whose elapsed time has reached its duration it still answers true, and
answers false after `get_session` observes the session and flips its state
to completed. -/
theorem c10_has_active_session (t : ExerciseTimer) (pid : String) (now : ℚ) :
    (t.has_active_session pid = true ↔
      ∃ s, t.find pid = some s ∧ s.state = ExerciseState.in_progress) ∧
    (∀ s, t.find pid = some s → s.state = ExerciseState.in_progress →
      (s.duration_seconds : ℚ) ≤ now - s.started_at →
      t.has_active_session pid = true ∧
      (t.get_session now pid).1.has_active_session pid = false) := by
  constructor
  · unfold ExerciseTimer.has_active_session
    match h : t.find pid with
    | none => simp
    | some s => simp [h]
  · intro s hs hstate htime
    have hact : t.has_active_session pid = true := by
      unfold ExerciseTimer.has_active_session
      rw [hs]
      simp [hstate]
    refine ⟨hact, ?_⟩
    have hcomp : s.is_complete now = true := by
      simp [ExerciseSession.is_complete, ExerciseSession.elapsed_seconds, htime]
    have hsome : (t.find pid).isSome = true := by rw [hs]; rfl
    have hget : t.get_session now pid =
        (t.store pid { s with state := ExerciseState.completed },
          some { s with state := ExerciseState.completed }) := by
      simp [ExerciseTimer.get_session, hs, hcomp, hstate]
    rw [hget]
    simp [ExerciseTimer.has_active_session, find_store_self t pid _ hsome]

/-- Witness for C10: an over-time in-progress session still counts as
active, and stops counting after one `get_session` observation. -/
theorem c10_witness :
    exampleTimer.has_active_session "p1" = true ∧
    (exampleTimer.get_session 100 "p1").1.has_active_session "p1" = false := by
  have h := (c10_has_active_session exampleTimer "p1" 100).2
    { player_id := "p1"
      exercise_id := 3
      exercise_name := "Quarter note drill"
      duration_seconds := 60
      started_at := 0
      state := ExerciseState.in_progress
      destination_location_id := some 10 } (by decide) (by decide) (by norm_num)
  exact h

/-- C5: while the active session of a player has elapsed strictly less than
its duration, `complete_exercise` fails with the not-yet-complete error
carrying the (positive) remaining seconds, and the whole game state —
player rows, locations, progress and the timer registry — is returned
unchanged. -/
theorem c5_complete_exercise_too_early (gs : GameState) (pid : String)
    (now : ℚ) (s : ExerciseSession) (hs : gs.timer.find pid = some s)
    (hlt : now - s.started_at < (s.duration_seconds : ℚ)) :
    ExerciseService.complete_exercise gs now pid =
      (gs, .error (.exerciseNotYetComplete
        ((s.duration_seconds : ℚ) - (now - s.started_at)))) ∧
    0 < (s.duration_seconds : ℚ) - (now - s.started_at) := by
  have hnotc : s.is_complete now = false := by
    simp only [ExerciseSession.is_complete, ExerciseSession.elapsed_seconds,
      decide_eq_false_iff_not, not_le]
    linarith
  have hget : gs.timer.get_session now pid = (gs.timer, some s) := by
    simp [ExerciseTimer.get_session, hs, hnotc]
  have hrem : s.remaining_seconds now =
      (s.duration_seconds : ℚ) - (now - s.started_at) := by
    simp only [ExerciseSession.remaining_seconds,
      ExerciseSession.elapsed_seconds]
    exact max_eq_right (by linarith)
  refine ⟨?_, by linarith⟩
  simp [ExerciseService.complete_exercise, hget, hnotc, hrem]

/-- A minimal game state: the default player and a running 60-second
session started at time 0. -/
def exampleState : GameState :=
  { players := [examplePlayer]
    worlds := []
    locations := []
    song := none
    segments := []
    exercises := []
    progress := []
    timer := exampleTimer }

/-- Witness for C5 at time 10 of a 60-second session. -/
theorem c5_witness :
    ExerciseService.complete_exercise exampleState 10 "p1" =
      (exampleState, .error (.exerciseNotYetComplete 50)) ∧
    (0 : ℚ) < 50 := by
  have h := c5_complete_exercise_too_early exampleState "p1" 10
    { player_id := "p1"
      exercise_id := 3
      exercise_name := "Quarter note drill"
      duration_seconds := 60
      started_at := 0
      state := ExerciseState.in_progress
      destination_location_id := some 10 } (by decide) (by norm_num)
  constructor
  · have h2 := h.1
    convert h2 using 3
    norm_num
  · norm_num

/-- A game state in which the default player stands at the location that
the first song segment is bound to, with no prior progress rows: exactly
the setting in which the specification promises the first collection
succeeds. -/
def exampleStateCollect : GameState :=
  { players := [{ examplePlayer with current_location_id := some 10 }]
    worlds := []
    locations := [exampleLocation]
    song := none
    segments := [{ exampleSegA with location_id := some 10 }]
    exercises := []
    progress := []
    timer := ⟨[]⟩ }

/-- C6: the first `collect_segment` call of a player standing at the
segment location does not succeed — it reaches
`ProgressRepository.mark_completed`, whose timestamp expression
`datetime.now(datetime.UTC)` raises `AttributeError` (in that module
`datetime` is the class, which has no `UTC` attribute), so the transaction
rolls back and the state is unchanged.  No collection can ever complete on
this code path. -/
theorem c6_first_collect_faults :
    QuestService.collect_segment exampleStateCollect "p1" 1 =
      (exampleStateCollect, .error (.pyAttributeError "UTC")) := rfl

/-- C7: for a ready player (all segments collected), a failing performance
score (below one half) makes `complete_final_quest` return a success result
with victory false, the computed rewards and the untouched player, leaving
the whole state unchanged; a passing score applies exactly the xp, gold and
reputation deltas.  Stat deltas are applied if and only if the score
reaches one half. -/
theorem c7_final_quest_victory_gate (gs : GameState) (pid : String)
    (score : ℚ) (p : Player) (w : World)
    (hp : gs.getPlayer pid = some p)
    (hw : gs.getWorldByPlayer pid = some w)
    (hready : (QuestService.get_inventory gs pid).can_perform_final = true) :
    (score < 1/2 →
      QuestService.complete_final_quest gs pid score =
        (gs, .ok
          { status := "quest_failed"
            victory := false
            monster_charmed := w.final_monster
            rescued := none
            rewards := RewardCalculator.calculate_final_quest_reward p.level
              (gs.collectedSegments pid).length score
            player := p })) ∧
    ((1/2 : ℚ) ≤ score →
      (QuestService.complete_final_quest gs pid score).1 =
        gs.putPlayer { p with
          xp := p.xp + (RewardCalculator.calculate_final_quest_reward p.level
            (gs.collectedSegments pid).length score).xp_gained
          gold := p.gold + (RewardCalculator.calculate_final_quest_reward
            p.level (gs.collectedSegments pid).length score).gold_gained
          reputation := p.reputation +
            (RewardCalculator.calculate_final_quest_reward p.level
              (gs.collectedSegments pid).length score).reputation_gained }) := by
  have hcs : (QuestService.get_inventory gs pid).collected_segments =
      gs.collectedSegments pid := rfl
  constructor
  · intro hsc
    have hvic : (RewardCalculator.calculate_final_quest_reward p.level
        (gs.collectedSegments pid).length score).victory = false := by
      simp only [RewardCalculator.calculate_final_quest_reward,
        decide_eq_false_iff_not, not_le]
      linarith
    simp [QuestService.complete_final_quest,
      QuestService.check_final_quest_ready, hready, hcs, hp, hw, hvic]
  · intro hsc
    have hvic : (RewardCalculator.calculate_final_quest_reward p.level
        (gs.collectedSegments pid).length score).victory = true := by
      simp only [RewardCalculator.calculate_final_quest_reward,
        decide_eq_true_eq]
      linarith
    simp [QuestService.complete_final_quest,
      QuestService.check_final_quest_ready, hready, hcs, hp, hw, hvic]

/-- The single final song, one segment in total. -/
def exampleSong : Song :=
  { id := 1
    title := "The Final Song"
    description := ""
    difficulty := 3
    total_segments := 1
    is_final_song := true }

/-- A concrete world for the default player. -/
def exampleWorld : World :=
  { id := 1
    player_id := "p1"
    name := "Harmonia"
    theme := "music"
    story_arc := "reunite the song"
    final_monster := "Dissonant Drake"
    rescue_target := "The Muse" }

/-- A completed progress row: the one required segment is collected. -/
def exampleProgressDone : PlayerProgress :=
  { id := 1
    player_id := "p1"
    progress_type := ProgressType.segment
    reference_id := 1
    state := ProgressState.completed
    score := none }

/-- A ready state: all (one) segments collected by the default player. -/
def exampleStateReady : GameState :=
  { players := [examplePlayer]
    worlds := [exampleWorld]
    locations := []
    song := some exampleSong
    segments := [{ exampleSegA with location_id := some 10 }]
    exercises := []
    progress := [exampleProgressDone]
    timer := ⟨[]⟩ }

/-- Witness for C7: a ready player failing with score 2/5 gets a success
result with victory false and an unchanged state. -/
theorem c7_witness :
    QuestService.complete_final_quest exampleStateReady "p1" (2/5) =
      (exampleStateReady, .ok
        { status := "quest_failed"
          victory := false
          monster_charmed := exampleWorld.final_monster
          rescued := none
          rewards := RewardCalculator.calculate_final_quest_reward
            examplePlayer.level
            (exampleStateReady.collectedSegments "p1").length (2/5)
          player := examplePlayer }) := by
  have h := (c7_final_quest_victory_gate exampleStateReady "p1" (2/5)
    examplePlayer exampleWorld rfl rfl rfl).1 (by norm_num)
  exact h

section UnlockLemmas

/-- Writing segments back never touches the location table. -/
theorem foldl_putSegment_locations (ss : List SongSegment) (gs : GameState) :
    (ss.foldl WorldService.putSegment gs).locations = gs.locations := by
  induction ss generalizing gs with
  | nil => rfl
  | cons s rest ih => exact (ih (WorldService.putSegment gs s))

/-- Segment distribution never touches the location table. -/
theorem distribute_song_segments_locations (gs : GameState) (world_id : Nat) :
    (WorldService.distribute_song_segments gs world_id).locations =
      gs.locations := by
  unfold WorldService.distribute_song_segments
  cases gs.song with
  | none => rfl
  | some song => exact foldl_putSegment_locations _ gs

/-- After `create_world` on a fresh world id, the locations of the new
world are exactly the ones the creation loop produced. -/
theorem create_world_worldLocations (gs : GameState) (pid nm th sa fm rt : String)
    (ldata : List (String × String × LocationType × Option String))
    (wid fid : Nat) (hfresh : ∀ l ∈ gs.locations, l.world_id ≠ wid) :
    (WorldService.create_world gs pid nm th sa fm rt ldata wid fid).1.worldLocations
        wid = WorldService.create_world_locations wid fid ldata := by
  have hmk : ∀ l ∈ WorldService.create_world_locations wid fid ldata,
      l.world_id = wid := by
    intro l hl
    obtain ⟨p, _, rfl⟩ := List.mem_map.1 hl
    rfl
  have hloc : (WorldService.create_world gs pid nm th sa fm rt ldata wid fid).1.locations =
      gs.locations ++ WorldService.create_world_locations wid fid ldata := by
    simp only [WorldService.create_world]
    by_cases hp1 : (gs.getPlayer pid).isSome
    all_goals simp only [hp1, if_true, if_false, Bool.false_eq_true]
    all_goals split
    all_goals try split
    all_goals simp [GameState.putPlayer, distribute_song_segments_locations]
  unfold GameState.worldLocations
  rw [hloc, List.filter_append]
  rw [List.filter_eq_nil_iff.2 (by intro a ha; simpa using hfresh a ha)]
  rw [List.filter_eq_self.2 (by intro a ha; simpa using hmk a ha)]
  simp

/-- Rows made for a later index than zero are locked. -/
theorem filter_unlocked_enumFrom (wid fid : Nat)
    (ds : List (String × String × LocationType × Option String)) :
    ∀ n, n ≠ 0 →
      ((ds.enumFrom n).map (WorldService.makeLocation wid fid)).filter
        (fun l => l.is_unlocked) = [] := by
  induction ds with
  | nil => intro n _; rfl
  | cons d rest ih =>
    intro n hn
    simp only [List.enumFrom, List.map_cons, List.filter_cons]
    rw [if_neg (by simp [WorldService.makeLocation, hn])]
    exact ih (n + 1) (by omega)

/-- The first still-locked location is absent exactly when everything is
unlocked. -/
theorem firstLocked_eq_none_iff (l : List Location) :
    WorldService.firstLocked l = none ↔ ∀ x ∈ l, x.is_unlocked = true := by
  induction l with
  | nil => simp [WorldService.firstLocked]
  | cons a t ih =>
    by_cases h : a.is_unlocked = true <;>
      simp [WorldService.firstLocked, h, ih]

/-- The first still-locked location is a locked member of the list. -/
theorem firstLocked_eq_some_mem (l : List Location) (x : Location)
    (h : WorldService.firstLocked l = some x) :
    x ∈ l ∧ x.is_unlocked = false := by
  induction l with
  | nil => simp [WorldService.firstLocked] at h
  | cons a t ih =>
    by_cases ha : a.is_unlocked = true
    · simp only [WorldService.firstLocked, ha, if_true] at h
      have h2 := ih h
      exact ⟨List.mem_cons_of_mem a h2.1, h2.2⟩
    · simp only [WorldService.firstLocked, ha, if_false, Bool.false_eq_true,
        Option.some.injEq] at h
      subst h
      exact ⟨List.mem_cons_self a t, by simpa using ha⟩

/-- On a list sorted by order index, the first still-locked location has
the least order index among the locked ones. -/
theorem firstLocked_eq_some_min (l : List Location) (x : Location)
    (hs : List.Sorted locLE l) (h : WorldService.firstLocked l = some x) :
    ∀ y ∈ l, y.is_unlocked = false → x.order_index ≤ y.order_index := by
  induction l with
  | nil => simp [WorldService.firstLocked] at h
  | cons a t ih =>
    obtain ⟨ha2, ht⟩ := List.sorted_cons.1 hs
    intro y hy hyl
    by_cases ha : a.is_unlocked = true
    · simp only [WorldService.firstLocked, ha, if_true] at h
      rcases List.mem_cons.1 hy with rfl | hyt
      · rw [hyl] at ha
        cases ha
      · exact ih ht h y hyt hyl
    · simp only [WorldService.firstLocked, ha, if_false, Bool.false_eq_true,
        Option.some.injEq] at h
      subst h
      rcases List.mem_cons.1 hy with rfl | hyt
      · exact le_refl _
      · exact ha2 y hyt

/-- The unlock write is the identity on rows whose id is not the target. -/
theorem map_unlock_id_of_not_mem (ls : List Location) (i : Nat)
    (h : ∀ x ∈ ls, x.id ≠ i) :
    ls.map (fun l => if l.id = i then { l with is_unlocked := true } else l) =
      ls := by
  induction ls with
  | nil => rfl
  | cons a t ih =>
    simp only [List.map_cons, if_neg (h a (List.mem_cons_self a t))]
    rw [ih (fun x hx => h x (List.mem_cons_of_mem a hx))]

/-- Zipping a list with itself produces no unequal pairs. -/
theorem zip_self_filter_ne (ls : List Location) :
    ((ls.zip ls).filter (fun q => q.1 ≠ q.2)) = [] := by
  induction ls with
  | nil => rfl
  | cons a t ih =>
    rw [List.zip_cons_cons, List.filter_cons, if_neg (by simp)]
    exact ih

/-- With distinct primary keys, the unlock write changes at most one row. -/
theorem unlock_changes_at_most_one (ls : List Location) (i : Nat)
    (hnd : (ls.map (fun l => l.id)).Nodup) :
    (((ls.map (fun l => if l.id = i then { l with is_unlocked := true } else l)).zip
        ls).filter (fun q => q.1 ≠ q.2)).length ≤ 1 := by
  induction ls with
  | nil => simp
  | cons a t ih =>
    simp only [List.map_cons, List.nodup_cons] at hnd
    by_cases ha : a.id = i
    · have htid : ∀ x ∈ t, x.id ≠ i := by
        intro x hx hxi
        have hax : a.id = x.id := ha.trans hxi.symm
        exact hnd.1 (by rw [hax]; exact List.mem_map_of_mem _ hx)
      rw [List.map_cons, if_pos ha, map_unlock_id_of_not_mem t i htid,
        List.zip_cons_cons, List.filter_cons]
      split
      · rw [zip_self_filter_ne]
        norm_num
      · rw [zip_self_filter_ne]
        norm_num
    · rw [List.map_cons, if_neg ha, List.zip_cons_cons, List.filter_cons,
        if_neg (by simp)]
      exact ih hnd.2

end UnlockLemmas

/-- C8: after `create_world` on a fresh world id, a created location is
unlocked exactly when its order index is 0, and (for a non-empty payload)
exactly one created location is unlocked; each `unlock_next_location` call
returns false and changes nothing when every location of the world is
already unlocked, and otherwise reports true and unlocks a locked location
of least order index, changing at most one row. -/
theorem c8_unlock_invariant :
    (∀ (gs : GameState) (pid nm th sa fm rt : String)
       (ldata : List (String × String × LocationType × Option String))
       (wid fid : Nat),
       (∀ l ∈ gs.locations, l.world_id ≠ wid) →
       ((∀ l ∈ (WorldService.create_world gs pid nm th sa fm rt ldata wid
            fid).1.worldLocations wid,
          l.is_unlocked = true ↔ l.order_index = 0) ∧
        (ldata ≠ [] →
          (((WorldService.create_world gs pid nm th sa fm rt ldata wid
              fid).1.worldLocations wid).filter
            (fun l => l.is_unlocked)).length = 1))) ∧
    (∀ (gs : GameState) (pid : String) (w : World),
       gs.getWorldByPlayer pid = some w →
       (gs.locations.map (fun l => l.id)).Nodup →
       (((∀ l ∈ gs.worldLocations w.id, l.is_unlocked = true) →
           WorldService.unlock_next_location gs pid = (gs, .ok false)) ∧
        ((∃ l ∈ gs.worldLocations w.id, l.is_unlocked = false) →
          (WorldService.unlock_next_location gs pid).2 = .ok true ∧
          ∃ l ∈ gs.worldLocations w.id, l.is_unlocked = false ∧
            (∀ l2 ∈ gs.worldLocations w.id, l2.is_unlocked = false →
              l.order_index ≤ l2.order_index) ∧
            (WorldService.unlock_next_location gs pid).1 =
              gs.unlockLocation l.id ∧
            (((gs.unlockLocation l.id).locations.zip gs.locations).filter
              (fun q => q.1 ≠ q.2)).length ≤ 1))) := by
  constructor
  · intro gs pid nm th sa fm rt ldata wid fid hfresh
    rw [create_world_worldLocations gs pid nm th sa fm rt ldata wid fid hfresh]
    constructor
    · intro l hl
      obtain ⟨p, _, rfl⟩ := List.mem_map.1 hl
      simp only [WorldService.makeLocation, decide_eq_true_eq]
      omega
    · intro hne
      obtain ⟨d, ds, rfl⟩ := List.exists_cons_of_ne_nil hne
      simp only [WorldService.create_world_locations, List.enum,
        List.enumFrom, List.map_cons, List.filter_cons]
      rw [if_pos (by simp [WorldService.makeLocation])]
      rw [filter_unlocked_enumFrom wid fid ds 1 (by omega)]
      rfl
  · intro gs pid w hw hnd
    have hsorted := List.sorted_insertionSort locLE (gs.worldLocations w.id)
    constructor
    · intro hall
      have hnone :
          WorldService.firstLocked
            (List.insertionSort locLE (gs.worldLocations w.id)) = none :=
        (firstLocked_eq_none_iff _).2
          (fun x hx => hall x ((List.mem_insertionSort locLE).1 hx))
      simp [WorldService.unlock_next_location, hw, hnone]
    · intro hex
      obtain ⟨l0, hl0, hl0u⟩ := hex
      have hne :
          WorldService.firstLocked
            (List.insertionSort locLE (gs.worldLocations w.id)) ≠ none := by
        intro hcon
        have hall2 := (firstLocked_eq_none_iff _).1 hcon l0
          ((List.mem_insertionSort locLE).2 hl0)
        rw [hl0u] at hall2
        cases hall2
      obtain ⟨lmin, hlm⟩ := Option.ne_none_iff_exists'.1 hne
      have hmem := firstLocked_eq_some_mem _ lmin hlm
      have hminmem : lmin ∈ gs.worldLocations w.id :=
        (List.mem_insertionSort locLE).1 hmem.1
      have hmin := firstLocked_eq_some_min _ lmin hsorted hlm
      refine ⟨by simp [WorldService.unlock_next_location, hw, hlm],
        lmin, hminmem, hmem.2,
        fun l2 hl2 hl2u => hmin l2 ((List.mem_insertionSort locLE).2 hl2) hl2u,
        by simp [WorldService.unlock_next_location, hw, hlm],
        unlock_changes_at_most_one gs.locations lmin.id hnd⟩

/-- The empty game state. -/
def emptyState : GameState :=
  { players := []
    worlds := []
    locations := []
    song := none
    segments := []
    exercises := []
    progress := []
    timer := ⟨[]⟩ }

/-- A concrete still-locked second location of the example world. -/
def exampleLocB : Location :=
  { id := 11
    world_id := 1
    name := "Old Tavern"
    description := ""
    location_type := LocationType.tavern
    exercise_focus := none
    order_index := 1
    is_unlocked := false }

/-- A state holding the example world with one unlocked and one locked
location. -/
def exampleStateWorld : GameState :=
  { players := [examplePlayer]
    worlds := [exampleWorld]
    locations := [exampleLocation, exampleLocB]
    song := none
    segments := []
    exercises := []
    progress := []
    timer := ⟨[]⟩ }

/-- Witness for C8: creating a two-location world leaves exactly one
location unlocked, and unlocking the next location in the example world
succeeds. -/
theorem c8_witness :
    (((WorldService.create_world emptyState "p1" "Harmonia" "music" "arc"
        "Drake" "Muse"
        [("Greenhollow Village", "", LocationType.village, some "rhythm"),
         ("Old Tavern", "", LocationType.tavern, none)]
        1 1).1.worldLocations 1).filter (fun l => l.is_unlocked)).length = 1 ∧
    (WorldService.unlock_next_location exampleStateWorld "p1").2 =
      .ok true := by
  have h := c8_unlock_invariant
  refine ⟨(h.1 emptyState "p1" "Harmonia" "music" "arc" "Drake" "Muse" _ 1 1
    (by simp [emptyState])).2 (by simp), ?_⟩
  exact ((h.2 exampleStateWorld "p1" exampleWorld (by decide) (by decide)).2
    ⟨exampleLocB, by decide, by decide⟩).1

/-- Witness for C9 at xp = 150. -/
theorem c9_witness :
    (0 : Int) ≤ 150 ∧
    (1 ≤ RewardCalculator.calculate_level 150 ∧
      (∀ y, (150 : Int) ≤ y →
        RewardCalculator.calculate_level 150 ≤
          RewardCalculator.calculate_level y) ∧
      (∃ req, (RewardCalculator.calculate_level 150, req) ∈
          RewardCalculator.LEVEL_XP_REQUIREMENTS ∧ req ≤ 150) ∧
      (∀ p ∈ RewardCalculator.LEVEL_XP_REQUIREMENTS, p.2 ≤ 150 →
        p.1 ≤ RewardCalculator.calculate_level 150)) :=
  ⟨by decide, c9_calculate_level_monotone_highest 150 (by decide)⟩

end Resolute
